import Mathlib

/-
  Verification of the bun-pty backend (src/patches/bun-pty-rust/lib.rs).

  Shallow embedding: machine integers are modelled as Int/Nat with explicit
  two's-complement truncation where Rust performs an `as` cast; the outcomes
  of OS calls (libc::read, write_all/flush, kill, resize, Pty::new,
  shell_words::split, Child::wait) are passed in as explicit oracle
  parameters, and the registry HashMap is modelled as a lookup function.
-/

namespace BunPty

/-- Result sentinel for success (`const SUCCESS: c_int = 0`). -/
def SUCCESS : Int := 0

/-- Generic error sentinel (`const ERROR: c_int = -1`). -/
def ERROR : Int := -1

/-- Child-exited sentinel (`const CHILD_EXITED: c_int = -2`). -/
def CHILD_EXITED : Int := -2

/-- Reinterpretation of an integer value as `u32` (Rust `as u32` on an `i32`
value: two's-complement truncation modulo 2^32). -/
def toU32 (x : Int) : Nat := (x % 4294967296).toNat

/-- Reinterpretation of a `u32` bit pattern as `i32` (Rust `as c_int` on a
`u32` value). -/
def toI32 (n : Nat) : Int :=
  if n % 4294967296 < 2147483648 then ((n % 4294967296 : Nat) : Int)
  else ((n % 4294967296 : Nat) : Int) - 4294967296

/-- Reinterpretation of an integer value as `u16` (Rust `as u16` on a `c_int`
value: two's-complement truncation modulo 2^16). -/
def toU16 (x : Int) : Nat := (x % 65536).toNat

/- ---------- exit-tracking state and the wait thread ---------- -/

/-- Exit-tracking fields of `struct Pty`: `exited: AtomicBool` and
`exit_code: AtomicI32`. -/
structure ExitState where
  exited : Bool
  exit_code : Int
deriving DecidableEq

/-- Initial exit state set up in `Pty::new`: `AtomicBool::new(false)`,
`AtomicI32::new(-1)`. -/
def initExitState : ExitState := { exited := false, exit_code := -1 }

/-- One atomic store on the exit-tracking fields. -/
inductive AtomicWrite where
  | storeExitCode (code : Int)
  | storeExited
deriving DecidableEq

/-- Effect of one atomic store on the exit-tracking state. -/
def applyWrite (s : ExitState) : AtomicWrite → ExitState
  | AtomicWrite.storeExitCode c => { s with exit_code := c }
  | AtomicWrite.storeExited => { s with exited := true }

/-- Effect of a sequence of atomic stores, performed in order. -/
def runWrites (s : ExitState) (l : List AtomicWrite) : ExitState :=
  l.foldl applyWrite s

/-- Sequence of atomic stores performed by the wait thread spawned in
`Pty::new`: when `child.wait()` returns `Ok(exit_status)` it stores
`exit_status.exit_code() as i32` into `exit_code` and then stores `true` into
`exited`; when `child.wait()` returns `Err(_)` it only stores `true` into
`exited`. `status` is `some code` (with `code` the child's `u32` exit code)
for a successful wait and `none` for a failed one. -/
def waitThreadWrites (status : Option Nat) : List AtomicWrite :=
  match status with
  | some code => [AtomicWrite.storeExitCode (toI32 code), AtomicWrite.storeExited]
  | none => [AtomicWrite.storeExited]

/-- Exit state observable by a concurrent reader after the wait thread has
performed its first `k` stores. -/
def observable (status : Option Nat) (k : Nat) : ExitState :=
  runWrites initExitState ((waitThreadWrites status).take k)

/- ---------- per-session operations ---------- -/

/-- Snapshot of the per-session fields of `struct Pty` read by the claims
(the stream/killer/descriptor objects themselves are external). -/
structure PtySession where
  exited : Bool
  exit_code : Int
  pid : Int
deriving DecidableEq

/-- Outcomes of the two stream calls made by `Pty::write`: whether
`write_all` returned `Ok`, and whether `flush` returned `Ok`. -/
structure WriteEnv where
  writeAllOk : Bool
  flushOk : Bool
deriving DecidableEq

/-- Translation of `Pty::write`: returns `CHILD_EXITED` when `exited` is set;
otherwise runs `write_all` under the writer lock — on `Ok(_)` it runs `flush`
but discards its result (`let _ = self.writer.lock().unwrap().flush();`) and
returns `SUCCESS`; on `Err(_)` it returns `ERROR`. -/
def ptyWrite (p : PtySession) (env : WriteEnv) : Int :=
  if p.exited then CHILD_EXITED
  else if env.writeAllOk then SUCCESS
  else ERROR

/-- Outcome of one `libc::read` call on the non-blocking read descriptor:
`data n` is a return value `n` with `n > 0` bytes stored, `eof` a return of
`0`, and the rest a return of `-1` with the named errno kind. -/
inductive ReadResult where
  | data (n : Nat)
  | eof
  | wouldBlock
  | interrupted
  | realError
deriving DecidableEq

/-- Value computed by the drain loop of `Pty::read_available`, starting from
`total` bytes already collected into a buffer of capacity `cap`, when the
successive `libc::read` calls return the outcomes listed in `reads`:
`some t` when the loop breaks with `t` bytes collected, `none` when the
function returns `ERROR` (a real error with zero bytes collected). -/
def drainLoopRes (cap : Nat) : Nat → List ReadResult → Option Nat
  | total, [] => some total
  | total, r :: rest =>
    if cap - total = 0 then some total
    else
      match r with
      | ReadResult.data n => drainLoopRes cap (total + n) rest
      | ReadResult.eof => some total
      | ReadResult.wouldBlock => some total
      | ReadResult.interrupted => drainLoopRes cap total rest
      | ReadResult.realError => if 0 < total then some total else none

/-- Number of `libc::read` calls performed by the drain loop in the same
run. -/
def drainLoopCount (cap : Nat) : Nat → List ReadResult → Nat
  | _, [] => 0
  | total, r :: rest =>
    if cap - total = 0 then 0
    else
      match r with
      | ReadResult.data n => drainLoopCount cap (total + n) rest + 1
      | ReadResult.eof => 1
      | ReadResult.wouldBlock => 1
      | ReadResult.interrupted => drainLoopCount cap total rest + 1
      | ReadResult.realError => 1

/-- Translation of `Pty::read_available`: short-circuits to `CHILD_EXITED`
when `exited` is set at entry; otherwise runs the drain loop, then returns
the positive byte count, `ERROR` on a real error with nothing collected, and
otherwise `CHILD_EXITED` or `0` according to the value `exitedAfterLoop` of
the `exited` flag re-loaded after the loop. -/
def read_available (p : PtySession) (exitedAfterLoop : Bool) (cap : Nat)
    (reads : List ReadResult) : Int :=
  if p.exited then CHILD_EXITED
  else
    match drainLoopRes cap 0 reads with
    | none => ERROR
    | some total =>
      if 0 < total then (total : Int)
      else if exitedAfterLoop then CHILD_EXITED
      else 0

/-- Number of `libc::read` calls performed by one `read_available` call. -/
def read_syscalls (p : PtySession) (cap : Nat) (reads : List ReadResult) : Nat :=
  if p.exited then 0 else drainLoopCount cap 0 reads

/-- Translation of `Pty::resize`: result of `master.resize(size)` under the
master lock; the body reads and writes none of the exit fields. -/
def ptyResize (resizeOk : Bool) : Int := if resizeOk then SUCCESS else ERROR

/-- Translation of `Pty::kill`: result of `killer.kill()` under the killer
lock; the body reads and writes none of the exit fields. -/
def ptyKill (killOk : Bool) : Int := if killOk then SUCCESS else ERROR

/-- Atomic stores performed by `Pty::kill` on the exit fields: none, in both
the success and the failure branch of `killer.kill()`. -/
def ptyKillExitWrites (killOk : Bool) : List AtomicWrite :=
  match killOk with
  | true => []
  | false => []

/- ---------- handle registry and FFI boundary ---------- -/

/-- Contents of the registry `REG: Mutex<HashMap<u32, Arc<Pty>>>`, as a
lookup function from `u32` keys. -/
def Reg : Type := Nat → Option PtySession

/-- Translation of the helper `with`: looks the handle up in `REG`, applies
`f` to the session when present, and produces `R::default()` — which is `0`
at `R = c_int`, the only instantiation the exports use — when absent
(`.get(&h).map(f).unwrap_or_default()`). -/
def wth (reg : Reg) (h : Nat) (f : PtySession → Int) : Int :=
  match reg h with
  | some p => f p
  | none => 0

/-- Registry contents together with the `NEXT_ID: AtomicI32` counter, kept as
its `u32` bit pattern; `NEXT_ID` starts at 1. -/
structure SpawnState where
  nextId : Nat
  reg : Reg

/-- Translation of `insert`: takes `NEXT_ID.fetch_add(1, Ordering::Relaxed)
as u32` as the new id (the `i32` counter wraps on overflow, so its `u32` view
advances modulo 2^32) and stores the session under that key. -/
def insert (st : SpawnState) (p : PtySession) : Nat × SpawnState :=
  (st.nextId,
   { nextId := (st.nextId + 1) % 4294967296,
     reg := fun k => if k = st.nextId then some p else st.reg k })

/-- Translation of `struct Command`. -/
structure Command where
  prog : String
  args : List String
  cwd : Option String
  env : Option (List (String × String))

/-- Observable outcome of one `bun_pty_spawn` call: the returned `c_int`, the
registry/counter state afterwards, whether `Pty::new` was invoked (the only
step that touches OS resources: openpty, spawn_command, descriptor dup), and
the `PtySize` passed to it, as `(cols as u16, rows as u16)`. -/
structure SpawnOutcome where
  result : Int
  st : SpawnState
  osTouched : Bool
  sizeUsed : Option (Nat × Nat)

/-- Translation of `bun_pty_spawn`. `tokens` is the result of
`shell_words::split` on the command line (`none` for `Err`); `ptyNew` is the
outcome of `Pty::new` for a given command and size (`none` for `Err`). A
parse error or an empty token list returns `ERROR` before `Pty::new` runs;
otherwise the `Command` is built (`cwd` empty means `None`, empty env map
means `None`), `Pty::new` runs with size `(cols as u16, rows as u16)`, and on
success the session is inserted and the new id returned as `c_int`. -/
def bun_pty_spawn (st : SpawnState) (tokens : Option (List String))
    (cwd : String) (envMap : List (String × String))
    (ptyNew : Command → Nat × Nat → Option PtySession)
    (cols rows : Int) : SpawnOutcome :=
  match tokens with
  | none => { result := ERROR, st := st, osTouched := false, sizeUsed := none }
  | some [] => { result := ERROR, st := st, osTouched := false, sizeUsed := none }
  | some (prog :: rest) =>
    let size : Nat × Nat := (toU16 cols, toU16 rows)
    let command : Command :=
      { prog := prog, args := rest,
        cwd := if cwd = "" then none else some cwd,
        env := if envMap = [] then none else some envMap }
    match ptyNew command size with
    | none => { result := ERROR, st := st, osTouched := true, sizeUsed := some size }
    | some p =>
      let r := insert st p
      { result := toI32 r.1, st := r.2, osTouched := true, sizeUsed := some size }

/-- Translation of `bun_pty_write`: the guard
`handle <= 0 || data.is_null() || len <= 0` returns `ERROR` before any
registry access; the second component records whether the registry lookup
(`with`) ran. -/
def bun_pty_write (reg : Reg) (handle : Int) (dataNull : Bool) (len : Int)
    (env : WriteEnv) : Int × Bool :=
  if handle ≤ 0 ∨ dataNull = true ∨ len ≤ 0 then (ERROR, false)
  else (wth reg (toU32 handle) (fun p => ptyWrite p env), true)

/-- Translation of `bun_pty_read` (unix path): the guard
`handle <= 0 || buf.is_null() || len <= 0` returns `ERROR` before any
registry access; otherwise reads into a buffer of capacity `len as usize`. -/
def bun_pty_read (reg : Reg) (handle : Int) (bufNull : Bool) (len : Int)
    (exitedAfterLoop : Bool) (reads : List ReadResult) : Int × Bool :=
  if handle ≤ 0 ∨ bufNull = true ∨ len ≤ 0 then (ERROR, false)
  else (wth reg (toU32 handle)
          (fun p => read_available p exitedAfterLoop len.toNat reads), true)

/-- Translation of `bun_pty_resize`: the guard
`handle <= 0 || cols <= 0 || rows <= 0` returns `ERROR` before any registry
access. -/
def bun_pty_resize (reg : Reg) (handle cols rows : Int) (resizeOk : Bool) :
    Int × Bool :=
  if handle ≤ 0 ∨ cols ≤ 0 ∨ rows ≤ 0 then (ERROR, false)
  else (wth reg (toU32 handle) (fun _ => ptyResize resizeOk), true)

/-- Translation of `bun_pty_kill`. -/
def bun_pty_kill (reg : Reg) (handle : Int) (killOk : Bool) : Int × Bool :=
  if handle ≤ 0 then (ERROR, false)
  else (wth reg (toU32 handle) (fun _ => ptyKill killOk), true)

/-- Translation of `bun_pty_get_pid`. -/
def bun_pty_get_pid (reg : Reg) (handle : Int) : Int × Bool :=
  if handle ≤ 0 then (ERROR, false)
  else (wth reg (toU32 handle) (fun p => p.pid), true)

/-- Translation of `bun_pty_get_exit_code`. -/
def bun_pty_get_exit_code (reg : Reg) (handle : Int) : Int × Bool :=
  if handle ≤ 0 then (ERROR, false)
  else (wth reg (toU32 handle) (fun p => p.exit_code), true)

/-- Translation of `bun_pty_close`: removes the handle from `REG`;
`handle <= 0` is a no-op. -/
def bun_pty_close (reg : Reg) (handle : Int) : Reg :=
  if handle ≤ 0 then reg
  else fun k => if k = toU32 handle then none else reg k

/- ---------- iterated spawning, for the handle-sequence claims ---------- -/

/-- Registry state at process start: empty map, `NEXT_ID` at 1. -/
def initialState : SpawnState := { nextId := 1, reg := fun _ => none }

/-- Arbitrary live session, used as the outcome of successful `Pty::new`
calls. -/
def dummySession : PtySession := { exited := false, exit_code := -1, pid := 1000 }

/-- Registry/counter state after `k` successful spawns from process start. -/
def spawnIter : Nat → SpawnState
  | 0 => initialState
  | k + 1 =>
    (bun_pty_spawn (spawnIter k) (some ["sh"]) "" []
      (fun _ _ => some dummySession) 80 24).st

/-- Handle returned by the `k`-th (0-indexed) successful spawn in that
sequence. -/
def handleAt (k : Nat) : Int :=
  (bun_pty_spawn (spawnIter k) (some ["sh"]) "" []
    (fun _ _ => some dummySession) 80 24).result

/- ---------- drain-loop run predicate, for the real-error claim ---------- -/

/-- Proposition: processing the outcomes `rs` with `t` bytes already
collected, the drain loop neither breaks nor errors, and ends the segment
with `t2` bytes collected — only successful `data` reads and `interrupted`
retries, each taken with buffer space remaining. -/
inductive Runs (cap : Nat) : Nat → List ReadResult → Nat → Prop
  | nil (t : Nat) : Runs cap t [] t
  | data (t n t2 : Nat) (rest : List ReadResult) (hcap : cap - t ≠ 0)
      (h : Runs cap (t + n) rest t2) : Runs cap t (ReadResult.data n :: rest) t2
  | interrupted (t t2 : Nat) (rest : List ReadResult) (hcap : cap - t ≠ 0)
      (h : Runs cap t rest t2) : Runs cap t (ReadResult.interrupted :: rest) t2

/-- Registry with no sessions stored. -/
def emptyReg : Reg := fun _ => none

/-- Registry holding exactly one session, under handle 1. -/
def regOne : Reg := fun k => if k = 1 then some dummySession else none

/-- Registry obtained from `regOne` by calling `bun_pty_close(1)`. -/
def regAfterClose : Reg := bun_pty_close regOne 1

/- ---------- theorems ---------- -/

/-- Helper: a non-breaking, non-erroring run of the drain loop over a first
segment of read outcomes advances the collected-byte count and leaves the
loop to continue on the remaining outcomes. -/
theorem drainLoopRes_append (cap : Nat) {t0 t : Nat} {pre : List ReadResult}
    (h : Runs cap t0 pre t) (rest : List ReadResult) :
    drainLoopRes cap t0 (pre ++ rest) = drainLoopRes cap t rest := by
  induction h with
  | nil t => rfl
  | data t n t2 rs hcap h ih => simpa [drainLoopRes, hcap] using ih
  | interrupted t t2 rs hcap h ih => simpa [drainLoopRes, hcap] using ih

/-- Helper: the handle counter advances by one (modulo 2^32) at each
successful spawn. -/
theorem spawnIter_succ_nextId (k : Nat) :
    (spawnIter (k + 1)).nextId = ((spawnIter k).nextId + 1) % 4294967296 := rfl

/-- Helper: closed form of the counter after `k` successful spawns. -/
theorem spawnIter_nextId (k : Nat) :
    (spawnIter k).nextId = (1 + k) % 4294967296 := by
  induction k with
  | zero => rfl
  | succ k ih =>
    rw [spawnIter_succ_nextId, ih]
    omega

/-- Helper: closed form of the handle returned by the `k`-th successful
spawn. -/
theorem handleAt_closed (k : Nat) :
    handleAt k = toI32 ((1 + k) % 4294967296) := by
  have h : handleAt k = toI32 ((spawnIter k).nextId) := rfl
  rw [h, spawnIter_nextId]

/-- C1 (counterexample): after `bun_pty_close(1)` removes handle 1, the
lookup is empty, yet `bun_pty_kill`, `bun_pty_get_pid`,
`bun_pty_get_exit_code`, `bun_pty_write`, `bun_pty_read` and
`bun_pty_resize` on handle 1 all return 0 — `c_int::default()` from
`unwrap_or_default()` — which is not the error sentinel -1 the claim
requires (0 is the Success code for write/resize/kill and the NoData code
for read). -/
theorem C1_counterexample :
    regAfterClose (toU32 1) = none ∧
    (bun_pty_kill regAfterClose 1 true).1 = 0 ∧
    (bun_pty_get_pid regAfterClose 1).1 = 0 ∧
    (bun_pty_get_exit_code regAfterClose 1).1 = 0 ∧
    (bun_pty_write regAfterClose 1 false 4 { writeAllOk := true, flushOk := true }).1 = 0 ∧
    (bun_pty_read regAfterClose 1 false 4 false []).1 = 0 ∧
    (bun_pty_resize regAfterClose 1 80 24 true).1 = 0 ∧
    (0 : Int) ≠ ERROR := by
  refine ⟨rfl, rfl, rfl, rfl, rfl, rfl, rfl, by decide⟩

/-- C1 (amended): an operation called with a positive handle that is absent
from the registry (in particular any closed handle: close removes the entry,
so it never re-activates a session) returns `Default::default() = 0` — the
success/no-data code, not the error sentinel -1; only the `handle <= 0` and
null/length guards produce the error sentinel. -/
theorem C1_amended (reg : Reg) (handle : Int) (killOk : Bool) (len : Int)
    (env : WriteEnv) (exitedAfterLoop : Bool) (reads : List ReadResult)
    (cols rows : Int) (resizeOk : Bool)
    (hpos : 0 < handle) (habs : reg (toU32 handle) = none)
    (hlen : 0 < len) (hcols : 0 < cols) (hrows : 0 < rows) :
    (bun_pty_kill reg handle killOk).1 = 0 ∧
    (bun_pty_get_pid reg handle).1 = 0 ∧
    (bun_pty_get_exit_code reg handle).1 = 0 ∧
    (bun_pty_write reg handle false len env).1 = 0 ∧
    (bun_pty_read reg handle false len exitedAfterLoop reads).1 = 0 ∧
    (bun_pty_resize reg handle cols rows resizeOk).1 = 0 ∧
    bun_pty_close reg handle (toU32 handle) = none := by
  have h0 : ¬ handle ≤ 0 := not_le.mpr hpos
  have hl : ¬ len ≤ 0 := not_le.mpr hlen
  have hc : ¬ cols ≤ 0 := not_le.mpr hcols
  have hr : ¬ rows ≤ 0 := not_le.mpr hrows
  refine ⟨?_, ?_, ?_, ?_, ?_, ?_, ?_⟩
  · simp [bun_pty_kill, h0, wth, habs]
  · simp [bun_pty_get_pid, h0, wth, habs]
  · simp [bun_pty_get_exit_code, h0, wth, habs]
  · simp [bun_pty_write, h0, hl, wth, habs]
  · simp [bun_pty_read, h0, hl, wth, habs]
  · simp [bun_pty_resize, h0, hc, hr, wth, habs]
  · simp [bun_pty_close, h0]

/-- C1 (witness for the amended theorem), at the empty registry and
handle 5. -/
theorem C1_amended_witness :
    ((0:Int) < 5 ∧ emptyReg (toU32 5) = none ∧ (0:Int) < 4 ∧ (0:Int) < 80 ∧ (0:Int) < 24) ∧
    ((bun_pty_kill emptyReg 5 true).1 = 0 ∧
     (bun_pty_get_pid emptyReg 5).1 = 0 ∧
     (bun_pty_get_exit_code emptyReg 5).1 = 0 ∧
     (bun_pty_write emptyReg 5 false 4 { writeAllOk := true, flushOk := true }).1 = 0 ∧
     (bun_pty_read emptyReg 5 false 4 false []).1 = 0 ∧
     (bun_pty_resize emptyReg 5 80 24 true).1 = 0 ∧
     bun_pty_close emptyReg 5 (toU32 5) = none) :=
  ⟨⟨by decide, rfl, by decide, by decide, by decide⟩,
   C1_amended emptyReg 5 true 4 { writeAllOk := true, flushOk := true } false [] 80 24 true
     (by decide) rfl (by decide) (by decide) (by decide)⟩

/-- C2 (counterexample): when `child.wait()` fails, the wait thread still
stores `true` into `exited` without ever storing an exit code, so a reader
can observe the terminal state `exited = true`, `exit_code = -1`, which the
claim rules out for every outcome of the wait. -/
theorem C2_counterexample :
    (observable none 1).exited = true ∧ (observable none 1).exit_code = -1 := by
  exact ⟨rfl, rfl⟩

/-- C2 (amended): on a successful wait the exit code is stored before the
liveness flag flips, so every observable state with `exited = true` carries
the child's actual code (the intermediate state after one store has the code
but not the flag); on a failed wait the thread sets `exited = true` while
`exit_code` stays at its initial -1. -/
theorem C2_amended (code : Nat) (k : Nat) :
    observable (some code) k =
      (if k = 0 then initExitState
       else if k = 1 then { exited := false, exit_code := toI32 code }
       else { exited := true, exit_code := toI32 code }) ∧
    observable none k =
      (if k = 0 then initExitState
       else { exited := true, exit_code := -1 }) := by
  constructor
  · match k with
    | 0 => rfl
    | 1 => rfl
    | k + 2 =>
      simp [observable, waitThreadWrites, runWrites, applyWrite, initExitState, List.take]
  · match k with
    | 0 => rfl
    | k + 1 =>
      simp [observable, waitThreadWrites, runWrites, applyWrite, initExitState, List.take]

/-- C3 (counterexample): on a live session, when `write_all` succeeds but
`flush` fails, `Pty::write` still returns `SUCCESS` — the flush result is
discarded by `let _ = ... flush()` — contradicting the claim that a flush
failure reports `IoError`. -/
theorem C3_counterexample :
    dummySession.exited = false ∧
    ptyWrite dummySession { writeAllOk := true, flushOk := false } = SUCCESS ∧
    SUCCESS ≠ ERROR :=
  ⟨rfl, rfl, by decide⟩

/-- C3 (amended): on a session whose liveness flag is not set, `write`
performs the write-all and then a flush whose result is discarded; it
returns `IoError` exactly when the write-all fails and `Success` exactly
when the write-all succeeds, regardless of the flush outcome. -/
theorem C3_amended (p : PtySession) (env : WriteEnv) (h : p.exited = false) :
    ptyWrite p env = (if env.writeAllOk then SUCCESS else ERROR) := by
  simp [ptyWrite, h]

/-- C3 (witness for the amended theorem): a live session whose write-all
fails. -/
theorem C3_amended_witness :
    dummySession.exited = false ∧
    ptyWrite dummySession { writeAllOk := false, flushOk := true } =
      (if (false : Bool) then SUCCESS else ERROR) :=
  ⟨rfl, C3_amended dummySession { writeAllOk := false, flushOk := true } rfl⟩

/-- C4: when the drain loop hits a real I/O error (after a segment of
successful reads and interrupted retries, with buffer space remaining),
`read_available` returns the count of bytes already collected if that count
is positive — the data is not discarded — and returns `ERROR` only when the
real error strikes with zero bytes collected. -/
theorem C4_real_error_keeps_data (p : PtySession) (exitedAfterLoop : Bool)
    (cap : Nat) (pre rest : List ReadResult) (t : Nat)
    (hp : p.exited = false) (hrun : Runs cap 0 pre t) (hcap : cap - t ≠ 0) :
    read_available p exitedAfterLoop cap (pre ++ ReadResult.realError :: rest) =
      (if 0 < t then (t : Int) else ERROR) := by
  have hd := drainLoopRes_append cap hrun (ReadResult.realError :: rest)
  rcases Nat.eq_zero_or_pos t with h0 | h0
  · subst h0
    have hc : ¬ cap = 0 := by omega
    have he : drainLoopRes cap 0 (ReadResult.realError :: rest) = none := by
      simp [drainLoopRes, hc]
    simp [read_available, hp, hd, he]
  · have he : drainLoopRes cap t (ReadResult.realError :: rest) = some t := by
      simp [drainLoopRes, hcap, h0]
    simp [read_available, hp, hd, he, h0]

/-- C4 (witness): a live session, capacity 8, one 3-byte read and then a
real error: the call returns 3, not `ERROR`. -/
theorem C4_witness :
    (dummySession.exited = false ∧ (8:Nat) - 3 ≠ 0) ∧
    read_available dummySession false 8 ([ReadResult.data 3] ++ ReadResult.realError :: []) =
      (if 0 < 3 then ((3:Nat) : Int) else ERROR) :=
  ⟨⟨rfl, by decide⟩,
   C4_real_error_keeps_data dummySession false 8 [ReadResult.data 3] [] 3 rfl
     (Runs.data 0 3 3 [] (by decide) (Runs.nil 3)) (by decide)⟩

/-- C5: `read_available` short-circuits to `CHILD_EXITED` when the liveness
flag is set at entry (performing zero reads on the descriptor, as the
syscall count shows); otherwise, when the drain loop ends with zero bytes
collected it returns `CHILD_EXITED` or `NoData (0)` according to the
re-loaded liveness flag, and when bytes were collected it returns their
count. -/
theorem C5_read_dispatch (p : PtySession) (exitedAfterLoop : Bool) (cap : Nat)
    (reads : List ReadResult) :
    read_available p exitedAfterLoop cap reads =
      (if p.exited then CHILD_EXITED
       else
         match drainLoopRes cap 0 reads with
         | none => ERROR
         | some total =>
           if total = 0 then (if exitedAfterLoop then CHILD_EXITED else 0)
           else (total : Int)) ∧
    read_syscalls p cap reads = (if p.exited then 0 else drainLoopCount cap 0 reads) := by
  constructor
  · cases hp : p.exited
    · rcases hd : drainLoopRes cap 0 reads with _ | t
      · simp [read_available, hp, hd]
      · rcases Nat.eq_zero_or_pos t with h0 | h0
        · subst h0
          simp [read_available, hp, hd]
        · simp [read_available, hp, hd, h0, Nat.pos_iff_ne_zero.mp h0]
    · simp [read_available, hp]
  · rfl

/-- C6 (counterexample): `NEXT_ID` is a wrapping 32-bit counter, so within
one process run the spawn sequence does wrap: spawn number 2^31 (0-indexed
2147483647) returns handle -2147483648 — not strictly positive, and smaller
than the previous handle 2147483647 instead of larger. -/
theorem C6_counterexample :
    handleAt 0 = 1 ∧
    handleAt 2147483647 = -2147483648 ∧
    ¬ (0 < handleAt 2147483647) ∧
    handleAt 2147483647 < handleAt 2147483646 := by
  have h0 : handleAt 0 = 1 := by
    rw [handleAt_closed]; norm_num [toI32]
  have h1 : handleAt 2147483647 = -2147483648 := by
    rw [handleAt_closed]; norm_num [toI32]
  have h2 : handleAt 2147483646 = 2147483647 := by
    rw [handleAt_closed]; norm_num [toI32]
  refine ⟨h0, h1, ?_, ?_⟩
  · rw [h1]; decide
  · rw [h1, h2]; decide

/-- C6 (amended): before the 32-bit counter wraps — i.e. for the first
2^31 - 1 successful spawns — every issued handle is strictly positive and
the handle sequence is strictly increasing (hence no handle repeats). -/
theorem C6_amended (i j : Nat) (hij : i < j) (hj : j < 2147483647) :
    0 < handleAt i ∧ handleAt i < handleAt j := by
  have hval : ∀ k : Nat, k < 2147483647 → handleAt k = ((1 + k : Nat) : Int) := by
    intro k hk
    rw [handleAt_closed]
    have hmod : (1 + k) % 4294967296 = 1 + k := Nat.mod_eq_of_lt (by omega)
    simp only [toI32, hmod]
    rw [if_pos (show 1 + k < 2147483648 by omega)]
  have hi := hval i (by omega)
  have hjv := hval j hj
  rw [hi, hjv]
  constructor
  · omega
  · omega

/-- C6 (witness for the amended theorem): the first two spawns. -/
theorem C6_amended_witness :
    ((0:Nat) < 1 ∧ (1:Nat) < 2147483647) ∧
    (0 < handleAt 0 ∧ handleAt 0 < handleAt 1) :=
  ⟨⟨by decide, by decide⟩, C6_amended 0 1 (by decide) (by decide)⟩

/-- C7: a command line whose tokenization fails (`shell_words::split`
returns `Err`, e.g. on unbalanced quotes) or yields zero tokens makes
`bun_pty_spawn` return the error sentinel with `Pty::new` never invoked (no
pty, child or descriptor allocated), the counter untouched (no handle
issued) and the registry unchanged (no entry created). -/
theorem C7_parse_failure_no_alloc (st : SpawnState) (cwd : String)
    (envMap : List (String × String))
    (ptyNew : Command → Nat × Nat → Option PtySession) (cols rows : Int)
    (tokens : Option (List String)) (h : tokens = none ∨ tokens = some []) :
    bun_pty_spawn st tokens cwd envMap ptyNew cols rows =
      { result := ERROR, st := st, osTouched := false, sizeUsed := none } := by
  rcases h with h | h <;> subst h <;> rfl

/-- C7 (witness): a failed tokenization at the initial state. -/
theorem C7_witness :
    ((none : Option (List String)) = none ∨ (none : Option (List String)) = some []) ∧
    bun_pty_spawn initialState none "" [] (fun _ _ => none) 80 24 =
      { result := ERROR, st := initialState, osTouched := false, sizeUsed := none } :=
  ⟨Or.inl rfl,
   C7_parse_failure_no_alloc initialState "" [] (fun _ _ => none) 80 24 none (Or.inl rfl)⟩

/-- C8: `Pty::kill` invokes the termination capability and returns `SUCCESS`
or `ERROR` according to its outcome, while performing no store to the
`exited` or `exit_code` fields in either branch: every exit-tracking state
is left exactly as it was. -/
theorem C8_kill_frame (s : ExitState) (killOk : Bool) :
    runWrites s (ptyKillExitWrites killOk) = s ∧
    ptyKill killOk = (if killOk then SUCCESS else ERROR) := by
  cases killOk <;> exact ⟨rfl, rfl⟩

/-- C9: `bun_pty_write` and `bun_pty_read` return the generic error sentinel
-1 whenever the data/buffer pointer is null or the length is non-positive,
before any registry lookup runs (the second component of the result records
whether `with` was invoked), for every registry and handle. -/
theorem C9_null_or_len_guard (reg : Reg) (handle lenW lenR : Int) (env : WriteEnv)
    (exitedAfterLoop : Bool) (reads : List ReadResult) (dataNull bufNull : Bool)
    (hw : dataNull = true ∨ lenW ≤ 0) (hr : bufNull = true ∨ lenR ≤ 0) :
    bun_pty_write reg handle dataNull lenW env = (ERROR, false) ∧
    bun_pty_read reg handle bufNull lenR exitedAfterLoop reads = (ERROR, false) := by
  constructor
  · unfold bun_pty_write
    rw [if_pos (Or.inr hw)]
  · unfold bun_pty_read
    rw [if_pos (Or.inr hr)]

/-- C9 (witness): a null data pointer with positive handle and length, and a
zero length with non-null buffer. -/
theorem C9_witness :
    ((true = true ∨ (9:Int) ≤ 0) ∧ ((false : Bool) = true ∨ (0:Int) ≤ 0)) ∧
    (bun_pty_write emptyReg 7 true 9 { writeAllOk := true, flushOk := true } = (ERROR, false) ∧
     bun_pty_read emptyReg 7 false 0 false [] = (ERROR, false)) := by
  refine ⟨⟨Or.inl rfl, Or.inr (by decide)⟩, ?_⟩
  exact C9_null_or_len_guard emptyReg 7 9 0 { writeAllOk := true, flushOk := true } false []
    true false (Or.inl rfl) (Or.inr (by decide))

/-- C10: `bun_pty_spawn` accepts every `cols`/`rows` value — zero and
negative included — and builds the `PtySize` by two's-complement truncation
`cols as u16`, `rows as u16` (reduction modulo 2^16), still issuing a
handle; `bun_pty_resize`, by contrast, rejects `cols <= 0` or `rows <= 0`
with the error sentinel before any registry lookup. -/
theorem C10_dims (st : SpawnState) (cwd : String) (envMap : List (String × String))
    (p : PtySession) (prog : String) (rest : List String) (cols rows : Int)
    (reg : Reg) (handle rcols rrows : Int) (resizeOk : Bool)
    (h : rcols ≤ 0 ∨ rrows ≤ 0) :
    (bun_pty_spawn st (some (prog :: rest)) cwd envMap (fun _ _ => some p) cols rows).sizeUsed
        = some ((cols % 65536).toNat, (rows % 65536).toNat) ∧
    (bun_pty_spawn st (some (prog :: rest)) cwd envMap (fun _ _ => some p) cols rows).result
        = toI32 st.nextId ∧
    bun_pty_resize reg handle rcols rrows resizeOk = (ERROR, false) := by
  refine ⟨rfl, rfl, ?_⟩
  unfold bun_pty_resize
  rcases h with h | h
  · rw [if_pos (Or.inr (Or.inl h))]
  · rw [if_pos (Or.inr (Or.inr h))]

/-- C10 (witness): spawning with `cols = -1`, `rows = 65536` (truncated to
65535 and 0) and resizing with `cols = 0`. -/
theorem C10_witness :
    ((0:Int) ≤ 0 ∨ (24:Int) ≤ 0) ∧
    ((bun_pty_spawn initialState (some ["sh"]) "" [] (fun _ _ => some dummySession)
        (-1) 65536).sizeUsed
        = some (((-1:Int) % 65536).toNat, ((65536:Int) % 65536).toNat) ∧
     (bun_pty_spawn initialState (some ["sh"]) "" [] (fun _ _ => some dummySession)
        (-1) 65536).result
        = toI32 initialState.nextId ∧
     bun_pty_resize emptyReg 3 0 24 true = (ERROR, false)) :=
  ⟨Or.inl (by decide),
   C10_dims initialState "" [] dummySession "sh" [] (-1) 65536 emptyReg 3 0 24 true
     (Or.inl (by decide))⟩

end BunPty

